import Mathlib

/-
Shallow embedding of the Customer-support-chatbot backend core:
the socket `send-message` pipeline (src/unnamed/part_000), the deferred
auto-response callback scheduled by setTimeout, and the chat-history
REST read (src/src/app.ts GET /chat/:id and the admin messages route).
Identifiers are modelled as `String`, timestamps and message ids as `Nat`
(the store hands out strictly increasing values), `undefined`-able payload
fields as `Option`.
-/

/-- User.role in the Prisma schema. -/
inductive Role
  | USER
  | ADMIN
  | AGENT
deriving DecidableEq

/-- ChatSession.status. -/
inductive ChatStatus
  | ACTIVE
  | CLOSED
deriving DecidableEq

/-- Payload `sender` field: "USER" | "ADMIN". -/
inductive Sender
  | USER
  | ADMIN
deriving DecidableEq

structure User where
  id : String
  name : String
  email : String
  role : Role
  isBanned : Bool
deriving DecidableEq

structure ChatSession where
  id : String
  userId : String
  status : ChatStatus
  closedAt : Option Nat
  updatedAt : Nat
deriving DecidableEq

structure Message where
  id : Nat
  chatId : String
  userId : String
  content : String
  isBot : Bool
  createdAt : Nat
deriving DecidableEq

structure AdminSettings where
  enableAutoResponse : Bool
  autoResponseMessage : Option String
deriving DecidableEq

/-- The relational store: Users, ChatSessions, Messages, the settings
singleton, plus the id/clock counters the database supplies. -/
structure Store where
  users : List User
  chats : List ChatSession
  messages : List Message
  settings : Option AdminSettings
  nextMessageId : Nat
  now : Nat
deriving DecidableEq

/-- interface SendMessagePayload; every field can arrive `undefined`. -/
structure SendMessagePayload where
  chatId : Option String
  content : Option String
  userId : Option String
  isBot : Option Bool
  sender : Option Sender
deriving DecidableEq

/-- The `select` projection of the message author attached by `include`. -/
structure UserInfo where
  id : String
  name : String
  email : String
  role : Role
deriving DecidableEq

/-- The messageResponse object broadcast to the room. -/
structure MessageResponse where
  id : Nat
  content : String
  isBot : Bool
  createdAt : Nat
  sender : String
  userId : String
  user : Option UserInfo
deriving DecidableEq

/-- Socket events emitted by the handler. -/
inductive Event
  | chatError (message : String)
  | chatClosed (chatId : String) (reason : String)
  | userBanned (message : String)
  | receiveMessage (chatId : String) (message : MessageResponse)
  | messageSent (chatId : String) (messageId : Nat)
deriving DecidableEq

/-- Where an event goes: `socket.emit` (requester only) or `io.to(room).emit`. -/
inductive Emit
  | toRequester (e : Event)
  | toRoom (room : String) (e : Event)
deriving DecidableEq

/-- A setTimeout-deferred auto-response: the callback closes over the
chatId and the settings record fetched at scheduling time. -/
structure ScheduledAuto where
  delayMs : Nat
  chatId : String
  settings : AdminSettings
deriving DecidableEq

/-- Result of one run of the send-message handler: the store after all
writes, the emitted events in order, and the timer it scheduled (if any). -/
structure SendResult where
  store : Store
  emits : List Emit
  scheduled : Option ScheduledAuto
deriving DecidableEq

/-- prisma.chatSession.findUnique by id. -/
def findChat (st : Store) (cid : String) : Option ChatSession :=
  st.chats.find? (fun c => decide (c.id = cid))

/-- prisma.user.findUnique by id. -/
def findUser (st : Store) (uid : String) : Option User :=
  st.users.find? (fun u => decide (u.id = uid))

/-- prisma.user.findFirst where role = ADMIN. -/
def findFirstAdmin (st : Store) : Option User :=
  st.users.find? (fun u => decide (u.role = Role.ADMIN))

/-- prisma.message.count where chatId, isBot = true. -/
def countBotMessages (st : Store) (cid : String) : Nat :=
  (st.messages.filter (fun m => decide (m.chatId = cid) && m.isBot)).length

/-- prisma.message.create: the database assigns the next id and the
current timestamp; the row is appended in insertion order. -/
def createMessage (st : Store) (cid uid content : String) (isBot : Bool) :
    Message × Store :=
  let msg : Message :=
    { id := st.nextMessageId, chatId := cid, userId := uid,
      content := content, isBot := isBot, createdAt := st.now }
  (msg,
   { st with
       messages := st.messages ++ [msg],
       nextMessageId := st.nextMessageId + 1,
       now := st.now + 1 })

/-- prisma.chatSession.update: status ACTIVE, closedAt null, updatedAt now. -/
def updateChatActive (st : Store) (cid : String) : Store :=
  { st with
      chats := st.chats.map (fun c =>
        if c.id = cid then
          { c with status := ChatStatus.ACTIVE, closedAt := none, updatedAt := st.now }
        else c) }

def toUserInfo (u : User) : UserInfo :=
  { id := u.id, name := u.name, email := u.email, role := u.role }

/-- The messageResponse built after message.create (include user). -/
def toMessageResponse (st : Store) (m : Message) : MessageResponse :=
  { id := m.id, content := m.content, isBot := m.isBot,
    createdAt := m.createdAt,
    sender := if m.isBot then "ADMIN" else "USER",
    userId := m.userId,
    user := (findUser st m.userId).map toUserInfo }

/-- JS String.prototype.trim: drop whitespace from both ends (modelled
on the character list so that it computes by kernel reduction). -/
def jsTrim (s : String) : String :=
  ⟨(((s.data.dropWhile Char.isWhitespace).reverse).dropWhile Char.isWhitespace).reverse⟩

/-- JS falsiness of an optional string: `!x` is true when the field is
`undefined` or the empty string. -/
def optFalsy : Option String → Bool
  | none => true
  | some s => decide (s = "")

/-- Guard `!payload.content || payload.content.trim().length === 0`. -/
def contentMissing : Option String → Bool
  | none => true
  | some s => decide (s = "") || decide ((jsTrim s).length = 0)

/-- JS truthiness of an optional string (used on autoResponseMessage). -/
def isTruthy : Option String → Bool
  | none => false
  | some s => decide (s ≠ "")

/-- Flag `const isAdmin = payload.sender === "ADMIN" || payload.isBot === true`. -/
def isAdminPayload (p : SendMessagePayload) : Bool :=
  decide (p.sender = some Sender.ADMIN) || decide (p.isBot = some true)

/-- Guard `settings?.enableAutoResponse && settings?.autoResponseMessage &&
settings.autoResponseMessage.trim().length > 0`. -/
def autoEnabledS (s : AdminSettings) : Bool :=
  s.enableAutoResponse && isTruthy s.autoResponseMessage &&
    decide (0 < (jsTrim (s.autoResponseMessage.getD "")).length)

/-- Tail of the send-message handler, reached once chatId and the chat
have been checked and the acting userId picked: the `!userId` guard, the
content guard, message.create, chatSession.update, the room broadcast,
the private ack, and the auto-response scheduling decision. -/
def finishSend (st : Store) (p : SendMessagePayload) (chatId userId : String) :
    SendResult :=
  let isAdmin := isAdminPayload p
  if userId = "" then
    { store := st,
      emits := [Emit.toRequester (Event.chatError "User ID is required")],
      scheduled := none }
  else if contentMissing p.content then
    { store := st,
      emits := [Emit.toRequester (Event.chatError "Message content is required")],
      scheduled := none }
  else
    let pair := createMessage st chatId userId (jsTrim (p.content.getD "")) isAdmin
    let msg := pair.1
    let st1 := pair.2
    let st2 := updateChatActive st1 chatId
    let resp := toMessageResponse st1 msg
    let emits := [Emit.toRoom chatId (Event.receiveMessage chatId resp),
                  Emit.toRequester (Event.messageSent chatId msg.id)]
    let scheduled :=
      if isAdmin then none
      else if countBotMessages st2 chatId = 0 then
        match st2.settings with
        | some s =>
            if autoEnabledS s then
              some { delayMs := 1000, chatId := chatId, settings := s }
            else none
        | none => none
      else none
    { store := st2, emits := emits, scheduled := scheduled }

/-- The socket `send-message` handler (src/unnamed/part_000 lines 27-210),
one run over the store, returning the post-state, the emissions in
program order, and the setTimeout task it scheduled (if any). -/
def sendMessage (st : Store) (p : SendMessagePayload) : SendResult :=
  if optFalsy p.chatId then
    { store := st,
      emits := [Emit.toRequester (Event.chatError "Chat ID is required")],
      scheduled := none }
  else
    let chatId := p.chatId.getD ""
    match findChat st chatId with
    | none =>
        { store := st,
          emits := [Emit.toRequester (Event.chatError "Chat not found")],
          scheduled := none }
    | some existing =>
        if existing.status = ChatStatus.CLOSED then
          { store := st,
            emits := [Emit.toRequester (Event.chatClosed chatId "Chat has been closed")],
            scheduled := none }
        else
          if isAdminPayload p = false then
            match findUser st existing.userId with
            | some u =>
                if u.isBanned then
                  { store := st,
                    emits := [Emit.toRequester
                      (Event.userBanned "You are banned from sending messages")],
                    scheduled := none }
                else finishSend st p chatId existing.userId
            | none => finishSend st p chatId existing.userId
          else
            if optFalsy p.userId then
              match findFirstAdmin st with
              | some adminUser => finishSend st p chatId adminUser.id
              | none =>
                  { store := st,
                    emits := [Emit.toRequester (Event.chatError "Admin user not found")],
                    scheduled := none }
            else finishSend st p chatId (p.userId.getD "")

/-- The setTimeout callback of the auto-response: re-fetches an ADMIN
user from the CURRENT store, but re-uses the settings snapshot captured
at scheduling time (`if (adminUser && settings.autoResponseMessage)`);
it never re-reads the settings record and never re-checks
enableAutoResponse. -/
def fireAuto (st : Store) (task : ScheduledAuto) : Store × List Emit :=
  match findFirstAdmin st with
  | none => (st, [])
  | some adminUser =>
      if isTruthy task.settings.autoResponseMessage then
        let pair := createMessage st task.chatId adminUser.id
          (task.settings.autoResponseMessage.getD "") true
        (pair.2,
         [Emit.toRoom task.chatId
           (Event.receiveMessage task.chatId (toMessageResponse st pair.1))])
      else (st, [])

/-- The formattedMessages projection of the history endpoints. -/
structure FormattedMessage where
  id : Nat
  content : String
  isBot : Bool
  createdAt : Nat
  sender : String
  userId : String
deriving DecidableEq

def formatMessage (m : Message) : FormattedMessage :=
  { id := m.id, content := m.content, isBot := m.isBot,
    createdAt := m.createdAt,
    sender := if m.isBot then "ADMIN" else "USER",
    userId := m.userId }

/-- Insertion step for ordering by createdAt ascending. -/
def insertByCreatedAt (m : Message) : List Message → List Message
  | [] => [m]
  | x :: xs =>
      if m.createdAt ≤ x.createdAt then m :: x :: xs
      else x :: insertByCreatedAt m xs

/-- `orderBy: createdAt asc` of the store. -/
def sortByCreatedAt : List Message → List Message
  | [] => []
  | x :: xs => insertByCreatedAt x (sortByCreatedAt xs)

/-- GET /chat/:id message list: findMany where chatId, orderBy createdAt
asc, mapped through the formattedMessages projection. -/
def getChatMessages (st : Store) (cid : String) : List FormattedMessage :=
  (sortByCreatedAt (st.messages.filter (fun m => decide (m.chatId = cid)))).map
    formatMessage

/-- The acting author the pipeline settles on for a chat (mirrors the
visitor/admin branches): a visitor is forced to the chat owner and must
pass the ban check; an admin sender uses the provided id when truthy,
else any ADMIN-role user. `none` means the branch aborted. -/
def resolveAuthor (st : Store) (p : SendMessagePayload) (c : ChatSession) :
    Option String :=
  if isAdminPayload p = false then
    match findUser st c.userId with
    | some u => if u.isBanned then none else some c.userId
    | none => some c.userId
  else
    if optFalsy p.userId then (findFirstAdmin st).map User.id
    else some (p.userId.getD "")

/-- Replace every user's isBanned flag according to `f` (used to state
that the admin-flagged pipeline never consults ban flags). -/
def mapBan (f : String → Bool) (st : Store) : Store :=
  { st with users := st.users.map (fun u => { u with isBanned := f u.id }) }

/-- The Message row the success path of finishSend appends. -/
def newMessage (st : Store) (p : SendMessagePayload) (cid uid : String) : Message :=
  { id := st.nextMessageId, chatId := cid, userId := uid,
    content := jsTrim (p.content.getD ""), isBot := isAdminPayload p,
    createdAt := st.now }

/- Concrete fixtures used by witnesses and counterexamples. -/

def visitorUser : User :=
  { id := "u1", name := "Visitor", email := "v@example.com",
    role := Role.USER, isBanned := false }

def adminUser1 : User :=
  { id := "a1", name := "Admin", email := "a@example.com",
    role := Role.ADMIN, isBanned := false }

def bannedUser : User :=
  { id := "u2", name := "Banned", email := "b@example.com",
    role := Role.USER, isBanned := true }

def activeChat : ChatSession :=
  { id := "c1", userId := "u1", status := ChatStatus.ACTIVE,
    closedAt := none, updatedAt := 0 }

def closedChat : ChatSession :=
  { id := "c2", userId := "u1", status := ChatStatus.CLOSED,
    closedAt := some 5, updatedAt := 0 }

def bannedChat : ChatSession :=
  { id := "c3", userId := "u2", status := ChatStatus.ACTIVE,
    closedAt := none, updatedAt := 0 }

def settingsOn : AdminSettings :=
  { enableAutoResponse := true, autoResponseMessage := some "Welcome!" }

def baseStore : Store :=
  { users := [visitorUser, adminUser1, bannedUser],
    chats := [activeChat, closedChat, bannedChat],
    messages := [], settings := some settingsOn, nextMessageId := 1, now := 10 }

def visitorPayload : SendMessagePayload :=
  { chatId := some "c1", content := some " hi ", userId := none,
    isBot := none, sender := some Sender.USER }

/-- A store whose user table holds no ADMIN-role user at all. -/
def noAdminStore : Store :=
  { users := [visitorUser], chats := [activeChat], messages := [],
    settings := some settingsOn, nextMessageId := 1, now := 10 }

/-- Settings with auto-response switched off but the template kept. -/
def settingsOffW : AdminSettings :=
  { enableAutoResponse := false, autoResponseMessage := some "Welcome!" }

/-- The task the visitor's first message on baseStore schedules. -/
def scheduledTask1 : ScheduledAuto :=
  { delayMs := 1000, chatId := "c1", settings := settingsOn }

/-- Store state right after the visitor's first message. -/
def afterVisitorStore : Store := (sendMessage baseStore visitorPayload).store

/-- The same state with auto-response disabled before the timer fires. -/
def disabledStore : Store := { afterVisitorStore with settings := some settingsOffW }

/- Helper lemmas shared by the claim theorems. -/

theorem optFalsy_some_ne (s : String) (h : s ≠ "") : optFalsy (some s) = false := by
  simp [optFalsy, h]

/-- Under the hypotheses that chatId is present and truthy, the chat is
found and not CLOSED, and author resolution succeeds with `uid`, the
handler reduces to its tail `finishSend st p cid uid`. -/
theorem sendMessage_eq_finish (st : Store) (p : SendMessagePayload) (cid : String)
    (c : ChatSession) (uid : String)
    (h1 : p.chatId = some cid) (h2 : cid ≠ "")
    (h3 : findChat st cid = some c) (h4 : c.status ≠ ChatStatus.CLOSED)
    (h5 : resolveAuthor st p c = some uid) :
    sendMessage st p = finishSend st p cid uid := by
  unfold sendMessage
  rw [h1]
  simp only [optFalsy_some_ne cid h2, Bool.false_eq_true, if_false, Option.getD_some, h3]
  rw [if_neg h4]
  unfold resolveAuthor at h5
  by_cases hA : isAdminPayload p = false
  · rw [if_pos hA] at h5
    rw [if_pos hA]
    cases hu : findUser st c.userId with
    | none =>
        simp only [hu] at h5 ⊢
        rw [Option.some.inj h5]
    | some u =>
        simp only [hu] at h5 ⊢
        by_cases hb : u.isBanned = true
        · rw [if_pos hb] at h5
          exact absurd h5 (by simp)
        · rw [if_neg hb] at h5
          rw [if_neg hb]
          rw [Option.some.inj h5]
  · rw [if_neg hA] at h5
    rw [if_neg hA]
    by_cases hid : optFalsy p.userId = true
    · rw [if_pos hid] at h5
      simp only [hid, if_true]
      cases ha : findFirstAdmin st with
      | none => rw [ha] at h5; exact absurd h5 (by simp)
      | some a =>
          simp only [ha, Option.map_some] at h5 ⊢
          rw [Option.some.inj h5]
    · rw [if_neg hid] at h5
      rw [if_neg hid]
      rw [Option.some.inj h5]

theorem finishSend_failure_userId (st : Store) (p : SendMessagePayload) (cid : String) :
    finishSend st p cid "" =
      { store := st,
        emits := [Emit.toRequester (Event.chatError "User ID is required")],
        scheduled := none } := by
  simp [finishSend]

theorem finishSend_failure_content (st : Store) (p : SendMessagePayload)
    (cid uid : String) (h6 : uid ≠ "") (h7 : contentMissing p.content = true) :
    finishSend st p cid uid =
      { store := st,
        emits := [Emit.toRequester (Event.chatError "Message content is required")],
        scheduled := none } := by
  simp [finishSend, h6, h7]

theorem finishSend_store_messages (st : Store) (p : SendMessagePayload)
    (cid uid : String) (h6 : uid ≠ "") (h7 : contentMissing p.content = false) :
    (finishSend st p cid uid).store.messages = st.messages ++ [newMessage st p cid uid] := by
  simp only [finishSend, if_neg h6, h7, Bool.false_eq_true, if_false]
  rfl

theorem finishSend_emits (st : Store) (p : SendMessagePayload)
    (cid uid : String) (h6 : uid ≠ "") (h7 : contentMissing p.content = false) :
    (finishSend st p cid uid).emits =
      [Emit.toRoom cid (Event.receiveMessage cid
          (toMessageResponse st (newMessage st p cid uid))),
       Emit.toRequester (Event.messageSent cid st.nextMessageId)] := by
  simp only [finishSend, if_neg h6, h7, Bool.false_eq_true, if_false]
  rfl

theorem find?_map_activate (cid : String) (t : Nat) (l : List ChatSession) :
    (l.map (fun c => if c.id = cid then
        { c with status := ChatStatus.ACTIVE, closedAt := none, updatedAt := t }
      else c)).find? (fun c => decide (c.id = cid)) =
    (l.find? (fun c => decide (c.id = cid))).map
      (fun c => { c with status := ChatStatus.ACTIVE, closedAt := none, updatedAt := t }) := by
  induction l with
  | nil => rfl
  | cons c l ih =>
      by_cases h : c.id = cid
      · simp [List.find?_cons, h]
      · simp [List.find?_cons, h, ih]

theorem findChat_updateChatActive (st : Store) (cid : String) :
    findChat (updateChatActive st cid) cid =
      (findChat st cid).map
        (fun c => { c with status := ChatStatus.ACTIVE, closedAt := none,
                           updatedAt := st.now }) := by
  unfold findChat updateChatActive
  exact find?_map_activate cid st.now st.chats

theorem finishSend_store_chats (st : Store) (p : SendMessagePayload)
    (cid uid : String) (h6 : uid ≠ "") (h7 : contentMissing p.content = false) :
    findChat (finishSend st p cid uid).store cid =
      (findChat st cid).map
        (fun c => { c with status := ChatStatus.ACTIVE, closedAt := none,
                           updatedAt := st.now + 1 }) := by
  simp only [finishSend, if_neg h6, h7, Bool.false_eq_true, if_false]
  exact findChat_updateChatActive _ cid

theorem finishSend_scheduled_admin (st : Store) (p : SendMessagePayload)
    (cid uid : String) (hA : isAdminPayload p = true) :
    (finishSend st p cid uid).scheduled = none := by
  by_cases h6 : uid = ""
  · rw [h6, finishSend_failure_userId]
  · by_cases h7 : contentMissing p.content = true
    · rw [finishSend_failure_content st p cid uid h6 h7]
    · rw [Bool.not_eq_true] at h7
      simp only [finishSend, if_neg h6, h7, Bool.false_eq_true, if_false, hA, if_true]

theorem finishSend_scheduled_visitor (st : Store) (p : SendMessagePayload)
    (cid uid : String) (h6 : uid ≠ "") (h7 : contentMissing p.content = false)
    (hA : isAdminPayload p = false) :
    (finishSend st p cid uid).scheduled =
      (if countBotMessages st cid = 0 then
        match st.settings with
        | some s =>
            if autoEnabledS s then
              some { delayMs := 1000, chatId := cid, settings := s }
            else none
        | none => none
      else none) := by
  simp only [finishSend, if_neg h6, h7, Bool.false_eq_true, if_false, hA]
  have hcount : countBotMessages
      (updateChatActive (createMessage st cid uid (jsTrim (p.content.getD ""))
        false).2 cid) cid = countBotMessages st cid := by
    simp only [countBotMessages, updateChatActive, createMessage]
    rw [List.filter_append]
    simp
  rw [hcount]
  rfl

theorem sendMessage_failure_noChatId (st : Store) (p : SendMessagePayload)
    (h : optFalsy p.chatId = true) :
    sendMessage st p =
      { store := st,
        emits := [Emit.toRequester (Event.chatError "Chat ID is required")],
        scheduled := none } := by
  simp [sendMessage, h]

theorem sendMessage_failure_notFound (st : Store) (p : SendMessagePayload) (cid : String)
    (h1 : p.chatId = some cid) (h2 : cid ≠ "") (h3 : findChat st cid = none) :
    sendMessage st p =
      { store := st,
        emits := [Emit.toRequester (Event.chatError "Chat not found")],
        scheduled := none } := by
  unfold sendMessage
  rw [h1]
  simp only [optFalsy_some_ne cid h2, Bool.false_eq_true, if_false, Option.getD_some, h3]

theorem sendMessage_failure_closed (st : Store) (p : SendMessagePayload) (cid : String)
    (c : ChatSession) (h1 : p.chatId = some cid) (h2 : cid ≠ "")
    (h3 : findChat st cid = some c) (h4 : c.status = ChatStatus.CLOSED) :
    sendMessage st p =
      { store := st,
        emits := [Emit.toRequester (Event.chatClosed cid "Chat has been closed")],
        scheduled := none } := by
  unfold sendMessage
  rw [h1]
  simp only [optFalsy_some_ne cid h2, Bool.false_eq_true, if_false, Option.getD_some, h3]
  rw [if_pos h4]

theorem sendMessage_failure_noAdmin (st : Store) (p : SendMessagePayload) (cid : String)
    (c : ChatSession) (h1 : p.chatId = some cid) (h2 : cid ≠ "")
    (h3 : findChat st cid = some c) (h4 : c.status ≠ ChatStatus.CLOSED)
    (hA : isAdminPayload p = true) (hid : optFalsy p.userId = true)
    (ha : findFirstAdmin st = none) :
    sendMessage st p =
      { store := st,
        emits := [Emit.toRequester (Event.chatError "Admin user not found")],
        scheduled := none } := by
  unfold sendMessage
  rw [h1]
  simp only [optFalsy_some_ne cid h2, Bool.false_eq_true, if_false, Option.getD_some, h3]
  rw [if_neg h4]
  simp only [hA, Bool.true_eq_false, if_false, hid, if_true, ha]

theorem sendMessage_failure_banned (st : Store) (p : SendMessagePayload) (cid : String)
    (c : ChatSession) (u : User) (h1 : p.chatId = some cid) (h2 : cid ≠ "")
    (h3 : findChat st cid = some c) (h4 : c.status ≠ ChatStatus.CLOSED)
    (hA : isAdminPayload p = false) (hu : findUser st c.userId = some u)
    (hb : u.isBanned = true) :
    sendMessage st p =
      { store := st,
        emits := [Emit.toRequester (Event.userBanned "You are banned from sending messages")],
        scheduled := none } := by
  unfold sendMessage
  rw [h1]
  simp only [optFalsy_some_ne cid h2, Bool.false_eq_true, if_false, Option.getD_some, h3]
  rw [if_neg h4]
  simp only [hA, if_true, hu, hb, if_true]

/-- For a visitor sender, author resolution never reads the payload and
yields the chat owner whenever it succeeds. -/
theorem resolveAuthor_visitor (st : Store) (p : SendMessagePayload) (c : ChatSession)
    (uid : String) (hA : isAdminPayload p = false)
    (h : resolveAuthor st p c = some uid) : uid = c.userId := by
  unfold resolveAuthor at h
  rw [if_pos hA] at h
  cases hu : findUser st c.userId with
  | none =>
      simp only [hu] at h
      exact (Option.some.inj h).symm
  | some u =>
      simp only [hu] at h
      by_cases hb : u.isBanned = true
      · rw [if_pos hb] at h
        exact absurd h (by simp)
      · rw [if_neg hb] at h
        exact (Option.some.inj h).symm

theorem isAdminPayload_true_of_not_false (p : SendMessagePayload)
    (h : ¬ isAdminPayload p = false) : isAdminPayload p = true := by
  revert h
  cases isAdminPayload p <;> simp

/-- Every run of the handler either leaves the store untouched (one of
the short-circuiting failures) or reaches the success tail with all
validation hypotheses in hand. -/
theorem sendMessage_inversion (st : Store) (p : SendMessagePayload) :
    ((sendMessage st p).store = st ∧ (sendMessage st p).scheduled = none) ∨
    ∃ cid c uid, p.chatId = some cid ∧ cid ≠ "" ∧ findChat st cid = some c ∧
      c.status ≠ ChatStatus.CLOSED ∧ resolveAuthor st p c = some uid ∧ uid ≠ "" ∧
      contentMissing p.content = false ∧
      sendMessage st p = finishSend st p cid uid := by
  cases hc : p.chatId with
  | none =>
      left
      rw [sendMessage_failure_noChatId st p (by simp [optFalsy, hc])]
      exact ⟨rfl, rfl⟩
  | some cid =>
      by_cases h2 : cid = ""
      · left
        rw [sendMessage_failure_noChatId st p (by simp [optFalsy, hc, h2])]
        exact ⟨rfl, rfl⟩
      · cases h3 : findChat st cid with
        | none =>
            left
            rw [sendMessage_failure_notFound st p cid hc h2 h3]
            exact ⟨rfl, rfl⟩
        | some c =>
            by_cases h4 : c.status = ChatStatus.CLOSED
            · left
              rw [sendMessage_failure_closed st p cid c hc h2 h3 h4]
              exact ⟨rfl, rfl⟩
            · cases h5 : resolveAuthor st p c with
              | none =>
                  left
                  unfold resolveAuthor at h5
                  by_cases hA : isAdminPayload p = false
                  · rw [if_pos hA] at h5
                    cases hu : findUser st c.userId with
                    | none =>
                        simp only [hu] at h5
                        exact absurd h5 (by simp)
                    | some u =>
                        simp only [hu] at h5
                        by_cases hb : u.isBanned = true
                        · rw [sendMessage_failure_banned st p cid c u hc h2 h3 h4 hA hu hb]
                          exact ⟨rfl, rfl⟩
                        · rw [if_neg hb] at h5
                          exact absurd h5 (by simp)
                  · have hA2 := isAdminPayload_true_of_not_false p hA
                    rw [if_neg hA] at h5
                    by_cases hid : optFalsy p.userId = true
                    · rw [if_pos hid] at h5
                      cases ha : findFirstAdmin st with
                      | none =>
                          rw [sendMessage_failure_noAdmin st p cid c hc h2 h3 h4 hA2 hid ha]
                          exact ⟨rfl, rfl⟩
                      | some a =>
                          rw [ha] at h5
                          exact absurd h5 (by simp)
                    · rw [if_neg hid] at h5
                      exact absurd h5 (by simp)
              | some uid =>
                  have heq := sendMessage_eq_finish st p cid c uid hc h2 h3 h4 h5
                  by_cases h6 : uid = ""
                  · left
                    rw [heq, h6, finishSend_failure_userId]
                    exact ⟨rfl, rfl⟩
                  · by_cases h7 : contentMissing p.content = true
                    · left
                      rw [heq, finishSend_failure_content st p cid uid h6 h7]
                      exact ⟨rfl, rfl⟩
                    · right
                      refine ⟨cid, c, uid, rfl, h2, h3, h4, h5, h6, ?_, heq⟩
                      revert h7
                      cases contentMissing p.content <;> simp

/-- C1: a send-message on an existing CLOSED chat performs no store write
of any kind (the post store is the pre store), schedules nothing, and
emits exactly one event — a chat-closed signal carrying the chatId and
the reason — to the requesting connection only; nothing goes to the
room. -/
theorem closed_chat_send_rejected (st : Store) (p : SendMessagePayload) (cid : String)
    (c : ChatSession) (h1 : p.chatId = some cid) (h2 : cid ≠ "")
    (h3 : findChat st cid = some c) (h4 : c.status = ChatStatus.CLOSED) :
    sendMessage st p =
      { store := st,
        emits := [Emit.toRequester (Event.chatClosed cid "Chat has been closed")],
        scheduled := none } :=
  sendMessage_failure_closed st p cid c h1 h2 h3 h4

theorem closed_chat_send_rejected_witness :
    sendMessage baseStore
        { chatId := some "c2", content := some "hello", userId := none,
          isBot := none, sender := some Sender.USER } =
      { store := baseStore,
        emits := [Emit.toRequester (Event.chatClosed "c2" "Chat has been closed")],
        scheduled := none } :=
  closed_chat_send_rejected baseStore _ "c2" closedChat rfl (by decide) (by decide) rfl

/-- C6: a visitor send on an existing ACTIVE chat whose owning user has
isBanned = true leaves the store untouched (no Message row) and emits
only the user-banned signal to the requesting connection. -/
theorem banned_visitor_send_rejected (st : Store) (p : SendMessagePayload)
    (cid : String) (c : ChatSession) (u : User)
    (h1 : p.chatId = some cid) (h2 : cid ≠ "") (h3 : findChat st cid = some c)
    (h4 : c.status = ChatStatus.ACTIVE) (hA : isAdminPayload p = false)
    (hu : findUser st c.userId = some u) (hb : u.isBanned = true) :
    sendMessage st p =
      { store := st,
        emits := [Emit.toRequester (Event.userBanned "You are banned from sending messages")],
        scheduled := none } :=
  sendMessage_failure_banned st p cid c u h1 h2 h3
    (by rw [h4]; exact fun h => ChatStatus.noConfusion h) hA hu hb

/-- C5: the validation steps fire in the stated order — chatId present,
chat exists, chat not CLOSED, authorship resolution (admin-user lookup
failure included), visitor ban check, non-empty content — and each
failing step short-circuits: the store is untouched, nothing is
scheduled, and exactly one step-specific signal goes to the requesting
connection only; the six signals are pairwise distinct. -/
theorem validation_order_shortcircuit (st : Store) (p : SendMessagePayload) :
    (optFalsy p.chatId = true →
      sendMessage st p =
        { store := st,
          emits := [Emit.toRequester (Event.chatError "Chat ID is required")],
          scheduled := none })
  ∧ (∀ cid, p.chatId = some cid → cid ≠ "" → findChat st cid = none →
      sendMessage st p =
        { store := st,
          emits := [Emit.toRequester (Event.chatError "Chat not found")],
          scheduled := none })
  ∧ (∀ cid c, p.chatId = some cid → cid ≠ "" → findChat st cid = some c →
      c.status = ChatStatus.CLOSED →
      sendMessage st p =
        { store := st,
          emits := [Emit.toRequester (Event.chatClosed cid "Chat has been closed")],
          scheduled := none })
  ∧ (∀ cid c, p.chatId = some cid → cid ≠ "" → findChat st cid = some c →
      c.status ≠ ChatStatus.CLOSED → isAdminPayload p = true →
      optFalsy p.userId = true → findFirstAdmin st = none →
      sendMessage st p =
        { store := st,
          emits := [Emit.toRequester (Event.chatError "Admin user not found")],
          scheduled := none })
  ∧ (∀ cid c u, p.chatId = some cid → cid ≠ "" → findChat st cid = some c →
      c.status ≠ ChatStatus.CLOSED → isAdminPayload p = false →
      findUser st c.userId = some u → u.isBanned = true →
      sendMessage st p =
        { store := st,
          emits := [Emit.toRequester (Event.userBanned "You are banned from sending messages")],
          scheduled := none })
  ∧ (∀ cid c uid, p.chatId = some cid → cid ≠ "" → findChat st cid = some c →
      c.status ≠ ChatStatus.CLOSED → resolveAuthor st p c = some uid → uid ≠ "" →
      contentMissing p.content = true →
      sendMessage st p =
        { store := st,
          emits := [Emit.toRequester (Event.chatError "Message content is required")],
          scheduled := none })
  ∧ (∀ cid, List.Pairwise (fun a b => a ≠ b)
      [Event.chatError "Chat ID is required", Event.chatError "Chat not found",
       Event.chatClosed cid "Chat has been closed",
       Event.chatError "Admin user not found",
       Event.userBanned "You are banned from sending messages",
       Event.chatError "Message content is required"]) := by
  refine ⟨?_, ?_, ?_, ?_, ?_, ?_, ?_⟩
  · exact fun h => sendMessage_failure_noChatId st p h
  · exact fun cid h1 h2 h3 => sendMessage_failure_notFound st p cid h1 h2 h3
  · exact fun cid c h1 h2 h3 h4 => sendMessage_failure_closed st p cid c h1 h2 h3 h4
  · exact fun cid c h1 h2 h3 h4 hA hid ha =>
      sendMessage_failure_noAdmin st p cid c h1 h2 h3 h4 hA hid ha
  · exact fun cid c u h1 h2 h3 h4 hA hu hb =>
      sendMessage_failure_banned st p cid c u h1 h2 h3 h4 hA hu hb
  · intro cid c uid h1 h2 h3 h4 h5 h6 h7
    rw [sendMessage_eq_finish st p cid c uid h1 h2 h3 h4 h5]
    exact finishSend_failure_content st p cid uid h6 h7
  · intro cid
    simp [List.pairwise_cons]

/-- C2: for an ordinary visitor sender (not ADMIN, not bot) the
client-supplied userId is immaterial: replacing it by anything yields
the identical run (same store, same emissions, same scheduling), and on
the success path the persisted row's author is the ChatSession's owning
userId. -/
theorem visitor_identity_noninterference (st : Store) (p : SendMessagePayload)
    (hA : isAdminPayload p = false) :
    (∀ u2 : Option String, sendMessage st { p with userId := u2 } = sendMessage st p)
  ∧ (∀ cid c uid, p.chatId = some cid → cid ≠ "" → findChat st cid = some c →
      c.status = ChatStatus.ACTIVE → resolveAuthor st p c = some uid → uid ≠ "" →
      contentMissing p.content = false →
      uid = c.userId ∧
      (sendMessage st p).store.messages = st.messages ++ [newMessage st p cid c.userId]) := by
  constructor
  · intro u2
    obtain ⟨pcid, pcont, puid, pbot, psend⟩ := p
    have hA2 : isAdminPayload ⟨pcid, pcont, u2, pbot, psend⟩ = false := hA
    cases pcid with
    | none =>
        rw [sendMessage_failure_noChatId st ⟨none, pcont, puid, pbot, psend⟩ rfl,
            sendMessage_failure_noChatId st ⟨none, pcont, u2, pbot, psend⟩ rfl]
    | some cid =>
        by_cases h2 : cid = ""
        · rw [sendMessage_failure_noChatId st ⟨some cid, pcont, puid, pbot, psend⟩
                (by simp [optFalsy, h2]),
              sendMessage_failure_noChatId st ⟨some cid, pcont, u2, pbot, psend⟩
                (by simp [optFalsy, h2])]
        · cases h3 : findChat st cid with
          | none =>
              rw [sendMessage_failure_notFound st ⟨some cid, pcont, puid, pbot, psend⟩ cid rfl h2 h3,
                  sendMessage_failure_notFound st ⟨some cid, pcont, u2, pbot, psend⟩ cid rfl h2 h3]
          | some c =>
              by_cases h4 : c.status = ChatStatus.CLOSED
              · rw [sendMessage_failure_closed st ⟨some cid, pcont, puid, pbot, psend⟩ cid c rfl h2 h3 h4,
                    sendMessage_failure_closed st ⟨some cid, pcont, u2, pbot, psend⟩ cid c rfl h2 h3 h4]
              · cases hu : findUser st c.userId with
                | some u =>
                    by_cases hb : u.isBanned = true
                    · rw [sendMessage_failure_banned st ⟨some cid, pcont, puid, pbot, psend⟩
                            cid c u rfl h2 h3 h4 hA hu hb,
                          sendMessage_failure_banned st ⟨some cid, pcont, u2, pbot, psend⟩
                            cid c u rfl h2 h3 h4 hA2 hu hb]
                    · have hr : resolveAuthor st ⟨some cid, pcont, puid, pbot, psend⟩ c = some c.userId := by
                        unfold resolveAuthor
                        rw [if_pos hA]
                        simp [hu, hb]
                      have hr2 : resolveAuthor st ⟨some cid, pcont, u2, pbot, psend⟩ c = some c.userId := by
                        unfold resolveAuthor
                        rw [if_pos hA2]
                        simp [hu, hb]
                      rw [sendMessage_eq_finish st ⟨some cid, pcont, puid, pbot, psend⟩
                            cid c c.userId rfl h2 h3 h4 hr,
                          sendMessage_eq_finish st ⟨some cid, pcont, u2, pbot, psend⟩
                            cid c c.userId rfl h2 h3 h4 hr2]
                      rfl
                | none =>
                    have hr : resolveAuthor st ⟨some cid, pcont, puid, pbot, psend⟩ c = some c.userId := by
                      unfold resolveAuthor
                      rw [if_pos hA]
                      simp [hu]
                    have hr2 : resolveAuthor st ⟨some cid, pcont, u2, pbot, psend⟩ c = some c.userId := by
                      unfold resolveAuthor
                      rw [if_pos hA2]
                      simp [hu]
                    rw [sendMessage_eq_finish st ⟨some cid, pcont, puid, pbot, psend⟩
                          cid c c.userId rfl h2 h3 h4 hr,
                        sendMessage_eq_finish st ⟨some cid, pcont, u2, pbot, psend⟩
                          cid c c.userId rfl h2 h3 h4 hr2]
                    rfl
  · intro cid c uid h1 h2 h3 h4 h5 h6 h7
    have huid := resolveAuthor_visitor st p c uid hA h5
    refine ⟨huid, ?_⟩
    rw [sendMessage_eq_finish st p cid c uid h1 h2 h3
        (by rw [h4]; exact fun h => ChatStatus.noConfusion h) h5]
    rw [finishSend_store_messages st p cid uid h6 h7, huid]

theorem visitor_identity_noninterference_witness :
    sendMessage baseStore { visitorPayload with userId := some "a1" } =
      sendMessage baseStore visitorPayload :=
  (visitor_identity_noninterference baseStore visitorPayload (by decide)).1 (some "a1")

/-- C8: on every successful send the ChatSession row ends with status
ACTIVE and closedAt cleared, and the emissions are exactly the room
broadcast of the persisted message followed — only afterwards — by the
private message-sent acknowledgment to the sender alone, carrying the
new message's id. -/
theorem success_updates_session_then_acks (st : Store) (p : SendMessagePayload)
    (cid : String) (c : ChatSession) (uid : String)
    (h1 : p.chatId = some cid) (h2 : cid ≠ "")
    (h3 : findChat st cid = some c) (h4 : c.status ≠ ChatStatus.CLOSED)
    (h5 : resolveAuthor st p c = some uid) (h6 : uid ≠ "")
    (h7 : contentMissing p.content = false) :
    findChat (sendMessage st p).store cid =
      some { c with status := ChatStatus.ACTIVE, closedAt := none,
                    updatedAt := st.now + 1 } ∧
    (sendMessage st p).emits =
      [Emit.toRoom cid (Event.receiveMessage cid
          (toMessageResponse st (newMessage st p cid uid))),
       Emit.toRequester (Event.messageSent cid (newMessage st p cid uid).id)] ∧
    (newMessage st p cid uid).id = st.nextMessageId := by
  rw [sendMessage_eq_finish st p cid c uid h1 h2 h3 h4 h5]
  refine ⟨?_, ?_, rfl⟩
  · rw [finishSend_store_chats st p cid uid h6 h7, h3]
    rfl
  · exact finishSend_emits st p cid uid h6 h7

theorem success_updates_session_then_acks_witness :
    findChat (sendMessage baseStore visitorPayload).store "c1" =
      some { activeChat with status := ChatStatus.ACTIVE, closedAt := none,
                             updatedAt := 11 } ∧
    (sendMessage baseStore visitorPayload).emits =
      [Emit.toRoom "c1" (Event.receiveMessage "c1"
          (toMessageResponse baseStore (newMessage baseStore visitorPayload "c1" "u1"))),
       Emit.toRequester (Event.messageSent "c1"
          (newMessage baseStore visitorPayload "c1" "u1").id)] ∧
    (newMessage baseStore visitorPayload "c1" "u1").id = 1 :=
  success_updates_session_then_acks baseStore visitorPayload "c1" activeChat "u1"
    rfl (by decide) (by decide) (by decide) (by decide) (by decide) (by decide)

theorem findUserInfo_mapBan (f : String → Bool) (st : Store) (uid : String) :
    (findUser (mapBan f st) uid).map toUserInfo = (findUser st uid).map toUserInfo := by
  unfold findUser mapBan
  rw [List.find?_map]
  rw [Option.map_map]
  rfl

theorem findFirstAdmin_mapBan (f : String → Bool) (st : Store) :
    (findFirstAdmin (mapBan f st)).map User.id = (findFirstAdmin st).map User.id := by
  unfold findFirstAdmin mapBan
  rw [List.find?_map]
  rw [Option.map_map]
  rfl

theorem resolveAuthor_mapBan_admin (f : String → Bool) (st : Store)
    (p : SendMessagePayload) (c : ChatSession) (hA : isAdminPayload p = true) :
    resolveAuthor (mapBan f st) p c = resolveAuthor st p c := by
  unfold resolveAuthor
  rw [hA]
  by_cases hid : optFalsy p.userId = true
  · simp only [Bool.true_eq_false, if_false, hid, if_true]
    exact findFirstAdmin_mapBan f st
  · simp only [Bool.true_eq_false, if_false, if_neg hid]

/-- C10: when the client sets sender = "ADMIN" or isBot = true, the
pipeline persists the message with isBot = true provided only that the
chat exists and is ACTIVE, the content is non-whitespace and an author
resolves — and it never consults any user's isBanned flag: rewriting
every isBanned arbitrarily (in particular banning every user) changes
neither the emissions, nor the scheduling, nor the rows appended, so a
banned user still gets the message persisted. -/
theorem admin_flag_bypasses_ban (st : Store) (p : SendMessagePayload)
    (cid : String) (c : ChatSession) (uid : String) (f : String → Bool)
    (hA : isAdminPayload p = true)
    (h1 : p.chatId = some cid) (h2 : cid ≠ "")
    (h3 : findChat st cid = some c) (h4 : c.status = ChatStatus.ACTIVE)
    (h5 : resolveAuthor st p c = some uid) (h6 : uid ≠ "")
    (h7 : contentMissing p.content = false) :
    (sendMessage st p).store.messages = st.messages ++ [newMessage st p cid uid]
  ∧ (newMessage st p cid uid).isBot = true
  ∧ (sendMessage (mapBan f st) p).emits = (sendMessage st p).emits
  ∧ (sendMessage (mapBan f st) p).scheduled = (sendMessage st p).scheduled
  ∧ (sendMessage (mapBan f st) p).store.messages = (sendMessage st p).store.messages := by
  have h4' : c.status ≠ ChatStatus.CLOSED := by
    rw [h4]
    exact fun h => ChatStatus.noConfusion h
  have h3' : findChat (mapBan f st) cid = some c := h3
  have h5' : resolveAuthor (mapBan f st) p c = some uid := by
    rw [resolveAuthor_mapBan_admin f st p c hA]
    exact h5
  have e1 := sendMessage_eq_finish st p cid c uid h1 h2 h3 h4' h5
  have e2 := sendMessage_eq_finish (mapBan f st) p cid c uid h1 h2 h3' h4' h5'
  refine ⟨?_, ?_, ?_, ?_, ?_⟩
  · rw [e1]
    exact finishSend_store_messages st p cid uid h6 h7
  · show isAdminPayload p = true
    exact hA
  · rw [e1, e2, finishSend_emits st p cid uid h6 h7,
        finishSend_emits (mapBan f st) p cid uid h6 h7]
    have : toMessageResponse (mapBan f st) (newMessage (mapBan f st) p cid uid) =
        toMessageResponse st (newMessage st p cid uid) := by
      unfold toMessageResponse
      rw [show newMessage (mapBan f st) p cid uid = newMessage st p cid uid from rfl]
      rw [findUserInfo_mapBan]
    rw [this]
    rfl
  · rw [e1, e2, finishSend_scheduled_admin st p cid uid hA,
        finishSend_scheduled_admin (mapBan f st) p cid uid hA]
  · rw [e1, e2, finishSend_store_messages st p cid uid h6 h7,
        finishSend_store_messages (mapBan f st) p cid uid h6 h7]
    rfl

theorem admin_flag_bypasses_ban_witness :
    (sendMessage baseStore
        { chatId := some "c3", content := some "hi", userId := none,
          isBot := some true, sender := none }).store.messages =
      baseStore.messages ++
        [newMessage baseStore
          { chatId := some "c3", content := some "hi", userId := none,
            isBot := some true, sender := none } "c3" "a1"] :=
  (admin_flag_bypasses_ban baseStore _ "c3" bannedChat "a1" (fun _ => true)
    (by decide) rfl (by decide) (by decide) (by decide) (by decide) (by decide)
    (by decide)).1

/-- C3 counterexample: on a store with no ADMIN-role user the visitor's
first message satisfies every scheduling condition of the claim and the
task is scheduled, but when the timer fires no Message is persisted and
nothing is broadcast (the callback silently drops the reply), refuting
the claim's unconditional "is persisted ... and is broadcast". -/
theorem auto_response_claim_counterexample :
    (sendMessage noAdminStore visitorPayload).scheduled = some scheduledTask1 ∧
    fireAuto (sendMessage noAdminStore visitorPayload).store scheduledTask1 =
      ((sendMessage noAdminStore visitorPayload).store, []) :=
  ⟨by decide, by decide⟩

/-- C3 (amended): after a successful visitor message the auto-response
task (1-second delay, capturing the settings record) is scheduled iff
the chat has zero bot-authored messages and the settings record exists
with enableAutoResponse true and a non-whitespace template; admin-sent
messages never schedule one; and when a scheduled task fires, PROVIDED a
user with ADMIN role exists in the store at fire time, the reply is
persisted with isBot = true and the untrimmed template as content and is
broadcast to the chatId room. -/
theorem auto_response_schedule_iff (st : Store) (p : SendMessagePayload)
    (cid : String) (c : ChatSession) (uid : String)
    (hA : isAdminPayload p = false)
    (h1 : p.chatId = some cid) (h2 : cid ≠ "")
    (h3 : findChat st cid = some c) (h4 : c.status ≠ ChatStatus.CLOSED)
    (h5 : resolveAuthor st p c = some uid) (h6 : uid ≠ "")
    (h7 : contentMissing p.content = false) :
    ((sendMessage st p).scheduled ≠ none ↔
      (countBotMessages st cid = 0 ∧
        ∃ s, st.settings = some s ∧ autoEnabledS s = true))
  ∧ (∀ task, (sendMessage st p).scheduled = some task →
      task.delayMs = 1000 ∧ task.chatId = cid ∧ st.settings = some task.settings)
  ∧ (∀ (st2 : Store) (p2 : SendMessagePayload), isAdminPayload p2 = true →
      (sendMessage st2 p2).scheduled = none)
  ∧ (∀ (stF : Store) (task : ScheduledAuto) (a : User),
      findFirstAdmin stF = some a →
      isTruthy task.settings.autoResponseMessage = true →
      (fireAuto stF task).1.messages = stF.messages ++
        [{ id := stF.nextMessageId, chatId := task.chatId, userId := a.id,
           content := task.settings.autoResponseMessage.getD "", isBot := true,
           createdAt := stF.now }] ∧
      (fireAuto stF task).2 =
        [Emit.toRoom task.chatId (Event.receiveMessage task.chatId
          (toMessageResponse stF
            { id := stF.nextMessageId, chatId := task.chatId, userId := a.id,
              content := task.settings.autoResponseMessage.getD "", isBot := true,
              createdAt := stF.now }))]) := by
  have e1 := sendMessage_eq_finish st p cid c uid h1 h2 h3 h4 h5
  have esched := finishSend_scheduled_visitor st p cid uid h6 h7 hA
  refine ⟨?_, ?_, ?_, ?_⟩
  · rw [e1, esched]
    constructor
    · intro hne
      by_cases hcnt : countBotMessages st cid = 0
      · refine ⟨hcnt, ?_⟩
        rw [if_pos hcnt] at hne
        cases hset : st.settings with
        | none => simp only [hset] at hne; exact absurd rfl hne
        | some sv =>
            simp only [hset] at hne
            by_cases hen : autoEnabledS sv = true
            · exact ⟨sv, rfl, hen⟩
            · rw [if_neg hen] at hne
              exact absurd rfl hne
      · rw [if_neg hcnt] at hne
        exact absurd rfl hne
    · rintro ⟨hcnt, sv, hset, hen⟩
      rw [if_pos hcnt]
      simp only [hset]
      rw [if_pos hen]
      exact fun h => Option.noConfusion h
  · intro task htask
    rw [e1, esched] at htask
    by_cases hcnt : countBotMessages st cid = 0
    · rw [if_pos hcnt] at htask
      cases hset : st.settings with
      | none => simp only [hset] at htask; exact absurd htask (by simp)
      | some sv =>
          simp only [hset] at htask
          by_cases hen : autoEnabledS sv = true
          · rw [if_pos hen] at htask
            have := Option.some.inj htask
            rw [← this]
            exact ⟨rfl, rfl, rfl⟩
          · rw [if_neg hen] at htask
            exact absurd htask (by simp)
    · rw [if_neg hcnt] at htask
      exact absurd htask (by simp)
  · intro st2 p2 hadm
    rcases sendMessage_inversion st2 p2 with h | ⟨cid2, c2, uid2, _, _, _, _, _, _, _, heq⟩
    · exact h.2
    · rw [heq]
      exact finishSend_scheduled_admin st2 p2 cid2 uid2 hadm
  · intro stF task a ha htr
    unfold fireAuto
    simp only [ha, htr, if_true]
    exact ⟨rfl, rfl⟩

theorem auto_response_schedule_iff_witness :
    scheduledTask1.delayMs = 1000 ∧ scheduledTask1.chatId = "c1" ∧
    baseStore.settings = some scheduledTask1.settings :=
  (auto_response_schedule_iff baseStore visitorPayload "c1" activeChat "u1"
    (by decide) rfl (by decide) (by decide) (by decide) (by decide) (by decide)
    (by decide)).2.1 scheduledTask1 (by decide)

/-- C4 counterexample: the visitor's message on baseStore schedules the
task while auto-response is enabled; the settings are then switched off
(enableAutoResponse = false) before the timer fires, yet firing the task
still persists a bot Message (built from the captured template) and
still broadcasts it to the room — the callback never re-checks the
settings. -/
theorem auto_disable_counterexample :
    (sendMessage baseStore visitorPayload).scheduled = some scheduledTask1 ∧
    disabledStore.settings = some settingsOffW ∧
    settingsOffW.enableAutoResponse = false ∧
    (fireAuto disabledStore scheduledTask1).1.messages =
      disabledStore.messages ++
        [{ id := 2, chatId := "c1", userId := "a1", content := "Welcome!",
           isBot := true, createdAt := 11 }] ∧
    (fireAuto disabledStore scheduledTask1).2 =
      [Emit.toRoom "c1" (Event.receiveMessage "c1"
        { id := 2, content := "Welcome!", isBot := true, createdAt := 11,
          sender := "ADMIN", userId := "a1",
          user := some (toUserInfo adminUser1) })] :=
  ⟨by decide, by decide, by decide, by decide, by decide⟩

/-- C4 (amended): the timer callback never re-reads the settings record;
it uses the snapshot captured at scheduling time. For ANY current value
of the settings — in particular with enableAutoResponse false — firing a
captured task persists and broadcasts the bot reply, as long as an
ADMIN-role user exists in the store at fire time and the captured
template is a non-empty string. -/
theorem auto_fire_ignores_current_settings (st : Store) (q : Option AdminSettings)
    (task : ScheduledAuto) (a : User) (t : String)
    (ha : findFirstAdmin st = some a)
    (ht : task.settings.autoResponseMessage = some t) (htne : t ≠ "") :
    (fireAuto { st with settings := q } task).1.messages =
      st.messages ++
        [{ id := st.nextMessageId, chatId := task.chatId, userId := a.id,
           content := t, isBot := true, createdAt := st.now }] ∧
    (fireAuto { st with settings := q } task).2 =
      [Emit.toRoom task.chatId (Event.receiveMessage task.chatId
        (toMessageResponse st
          { id := st.nextMessageId, chatId := task.chatId, userId := a.id,
            content := t, isBot := true, createdAt := st.now }))] := by
  have ha' : findFirstAdmin { st with settings := q } = some a := ha
  have htr : isTruthy task.settings.autoResponseMessage = true := by
    rw [ht]
    simp [isTruthy, htne]
  unfold fireAuto
  simp only [ha', htr, if_true]
  rw [show task.settings.autoResponseMessage.getD "" = t from by rw [ht]; rfl]
  exact ⟨rfl, rfl⟩

theorem auto_fire_ignores_current_settings_witness :
    (fireAuto { afterVisitorStore with settings := some settingsOffW }
        scheduledTask1).1.messages =
      afterVisitorStore.messages ++
        [{ id := afterVisitorStore.nextMessageId, chatId := "c1", userId := "a1",
           content := "Welcome!", isBot := true,
           createdAt := afterVisitorStore.now }] :=
  (auto_fire_ignores_current_settings afterVisitorStore (some settingsOffW)
    scheduledTask1 adminUser1 "Welcome!" (by decide) (by decide) (by decide)).1

theorem insertByCreatedAt_perm (m : Message) (l : List Message) :
    List.Perm (insertByCreatedAt m l) (m :: l) := by
  induction l with
  | nil => exact List.Perm.refl _
  | cons x xs ih =>
      unfold insertByCreatedAt
      by_cases h : m.createdAt ≤ x.createdAt
      · rw [if_pos h]
      · rw [if_neg h]
        exact List.Perm.trans (List.Perm.cons x ih) (List.Perm.swap m x xs)

theorem insertByCreatedAt_sorted (m : Message) (l : List Message)
    (h : List.Pairwise (fun a b => a.createdAt ≤ b.createdAt) l) :
    List.Pairwise (fun a b => a.createdAt ≤ b.createdAt) (insertByCreatedAt m l) := by
  induction l with
  | nil => simp [insertByCreatedAt]
  | cons x xs ih =>
      rw [List.pairwise_cons] at h
      obtain ⟨hx, hxs⟩ := h
      unfold insertByCreatedAt
      by_cases hle : m.createdAt ≤ x.createdAt
      · rw [if_pos hle]
        refine List.Pairwise.cons ?_ (List.Pairwise.cons hx hxs)
        intro b hb
        rcases List.mem_cons.mp hb with hbx | hbxs
        · rw [hbx]
          exact hle
        · exact le_trans hle (hx b hbxs)
      · rw [if_neg hle]
        refine List.Pairwise.cons ?_ (ih hxs)
        intro b hb
        have hb2 := (insertByCreatedAt_perm m xs).mem_iff.mp hb
        rcases List.mem_cons.mp hb2 with hbm | hbxs
        · rw [hbm]
          exact le_of_not_le hle
        · exact hx b hbxs

theorem sortByCreatedAt_perm (l : List Message) :
    List.Perm (sortByCreatedAt l) l := by
  induction l with
  | nil => exact List.Perm.refl _
  | cons x xs ih =>
      unfold sortByCreatedAt
      exact List.Perm.trans (insertByCreatedAt_perm x (sortByCreatedAt xs))
        (List.Perm.cons x ih)

theorem sortByCreatedAt_sorted (l : List Message) :
    List.Pairwise (fun a b => a.createdAt ≤ b.createdAt) (sortByCreatedAt l) := by
  induction l with
  | nil => simp [sortByCreatedAt]
  | cons x xs ih =>
      unfold sortByCreatedAt
      exact insertByCreatedAt_sorted x (sortByCreatedAt xs) ih

/-- C9: fetching a chat's history returns exactly the chat's stored rows
(a permutation of the store's filter under the formatting projection, so
contents, ids, authors and timestamps survive the round-trip), ordered
by ascending createdAt, with the derived sender equal to "ADMIN" iff the
stored isBot flag is true and "USER" otherwise; the projection changes
no id, content, isBot, createdAt or userId field. -/
theorem history_roundtrip (st : Store) (cid : String) :
    List.Pairwise (fun a b => a.createdAt ≤ b.createdAt) (getChatMessages st cid)
  ∧ List.Perm (getChatMessages st cid)
      ((st.messages.filter (fun m => decide (m.chatId = cid))).map formatMessage)
  ∧ (∀ fm, fm ∈ getChatMessages st cid → (fm.sender = "ADMIN" ↔ fm.isBot = true))
  ∧ (∀ fm, fm ∈ getChatMessages st cid → fm.isBot = false → fm.sender = "USER")
  ∧ (∀ m : Message, (formatMessage m).id = m.id ∧
      (formatMessage m).content = m.content ∧ (formatMessage m).isBot = m.isBot ∧
      (formatMessage m).createdAt = m.createdAt ∧
      (formatMessage m).userId = m.userId) := by
  refine ⟨?_, ?_, ?_, ?_, ?_⟩
  · unfold getChatMessages
    rw [List.pairwise_map]
    exact sortByCreatedAt_sorted _
  · unfold getChatMessages
    exact List.Perm.map formatMessage (sortByCreatedAt_perm _)
  · intro fm hfm
    unfold getChatMessages at hfm
    obtain ⟨m, _, hm⟩ := List.mem_map.mp hfm
    rw [← hm]
    unfold formatMessage
    cases hb : m.isBot <;> simp [hb]
  · intro fm hfm hbot
    unfold getChatMessages at hfm
    obtain ⟨m, _, hm⟩ := List.mem_map.mp hfm
    rw [← hm] at hbot ⊢
    unfold formatMessage at hbot ⊢
    cases hb : m.isBot <;> simp [hb] at hbot ⊢
  · intro m
    exact ⟨rfl, rfl, rfl, rfl, rfl⟩

theorem history_roundtrip_witness :
    List.Pairwise (fun a b => a.createdAt ≤ b.createdAt)
      (getChatMessages afterVisitorStore "c1") :=
  (history_roundtrip afterVisitorStore "c1").1

/-- C7 counterexample: a request with neither chatId nor content (content
absent, so the claim's premise holds) is answered with the
chat-id-required signal and never a content-required signal, refuting
the claim's unconditional "the requesting connection receives a
content-required signal". -/
theorem content_required_counterexample :
    contentMissing (none : Option String) = true ∧
    sendMessage baseStore
        { chatId := none, content := none, userId := none,
          isBot := none, sender := none } =
      { store := baseStore,
        emits := [Emit.toRequester (Event.chatError "Chat ID is required")],
        scheduled := none } ∧
    Event.chatError "Chat ID is required" ≠ Event.chatError "Message content is required" :=
  ⟨rfl, by decide, by decide⟩

/-- C7 (amended): whenever the payload content is absent, empty or
whitespace-only, no store write of any kind happens (in every run, even
ones failing earlier steps); if additionally the earlier validation
steps pass, the requester receives exactly the content-required signal;
and on the success path the persisted row's content is the payload
content with surrounding whitespace trimmed. -/
theorem content_validation (st : Store) (p : SendMessagePayload) :
    (contentMissing p.content = true → (sendMessage st p).store = st)
  ∧ (∀ cid c uid, p.chatId = some cid → cid ≠ "" → findChat st cid = some c →
      c.status ≠ ChatStatus.CLOSED → resolveAuthor st p c = some uid → uid ≠ "" →
      contentMissing p.content = true →
      sendMessage st p =
        { store := st,
          emits := [Emit.toRequester (Event.chatError "Message content is required")],
          scheduled := none })
  ∧ (∀ cid c uid, p.chatId = some cid → cid ≠ "" → findChat st cid = some c →
      c.status ≠ ChatStatus.CLOSED → resolveAuthor st p c = some uid → uid ≠ "" →
      contentMissing p.content = false →
      (sendMessage st p).store.messages = st.messages ++ [newMessage st p cid uid] ∧
      (newMessage st p cid uid).content = jsTrim (p.content.getD "")) := by
  refine ⟨?_, ?_, ?_⟩
  · intro h7
    rcases sendMessage_inversion st p with h | ⟨cid, c, uid, _, _, _, _, _, _, h7', _⟩
    · exact h.1
    · rw [h7] at h7'
      exact absurd h7' (by decide)
  · intro cid c uid h1 h2 h3 h4 h5 h6 h7
    rw [sendMessage_eq_finish st p cid c uid h1 h2 h3 h4 h5]
    exact finishSend_failure_content st p cid uid h6 h7
  · intro cid c uid h1 h2 h3 h4 h5 h6 h7
    rw [sendMessage_eq_finish st p cid c uid h1 h2 h3 h4 h5]
    exact ⟨finishSend_store_messages st p cid uid h6 h7, rfl⟩

theorem content_validation_witness :
    sendMessage baseStore
        { chatId := some "c1", content := some "   ", userId := none,
          isBot := none, sender := some Sender.USER } =
      { store := baseStore,
        emits := [Emit.toRequester (Event.chatError "Message content is required")],
        scheduled := none } :=
  (content_validation baseStore _).2.1 "c1" activeChat "u1" rfl (by decide)
    (by decide) (by decide) (by decide) (by decide) (by decide)

theorem validation_order_shortcircuit_witness :
    sendMessage baseStore
        { chatId := none, content := some "hello", userId := none,
          isBot := none, sender := none } =
      { store := baseStore,
        emits := [Emit.toRequester (Event.chatError "Chat ID is required")],
        scheduled := none } :=
  (validation_order_shortcircuit baseStore _).1 rfl

theorem banned_visitor_send_rejected_witness :
    sendMessage baseStore
        { chatId := some "c3", content := some "hello", userId := none,
          isBot := none, sender := some Sender.USER } =
      { store := baseStore,
        emits := [Emit.toRequester (Event.userBanned "You are banned from sending messages")],
        scheduled := none } :=
  banned_visitor_send_rejected baseStore _ "c3" bannedChat bannedUser rfl
    (by decide) (by decide) rfl (by decide) (by decide) rfl
